import Mathlib

/-!
Shallow embedding of the HL-MakePIP packaging helper and proofs about it.

The repository is orchestration glue: it writes a credentials config file
(`Codebase/Setup/create_pypirc.py`), builds and optionally uploads a package
via child processes (`Codebase/register_to_pip.py`), interactively uploads
with a pasted token (`Codebase/register_to_pypi.py`), and dispatches CLI
subcommands (`Codebase/cli.py`).

External effects (filesystem, child processes, prompts, prints) are made
explicit: filesystem operations act on an `FS` value, and the process-level
functions return traces of the events they would perform together with their
result.  Exit codes of child processes and other environment facts (which
files exist, whether stdin is a tty, ...) are inputs, packaged in "world"
structures.
-/

/-- Python `str.strip()` whitespace test (ASCII whitespace, as in CPython). -/
def isPySpace (c : Char) : Bool :=
  c = ' ' || c = '\t' || c = '\n' || c = '\r' || c = '\x0b' || c = '\x0c'

/-- Python `str.strip()`: drop leading and trailing whitespace. -/
def pyStrip (s : String) : String :=
  ⟨((s.data.dropWhile isPySpace).reverse.dropWhile isPySpace).reverse⟩

/-- Python `str.startswith(pre)`. -/
def pyStartswith (s pre : String) : Bool :=
  pre.data.isPrefixOf s.data

/-- One insertion step of the stable insertion sort modelling Python `sorted`. -/
def insertSorted (x : String) : List String → List String
  | [] => [x]
  | y :: ys => if x ≤ y then x :: y :: ys else y :: insertSorted x ys

/-- Python `sorted` on a list of strings. -/
def pySorted : List String → List String
  | [] => []
  | x :: xs => insertSorted x (pySorted xs)

/-- Python `repr` of a list of strings, as printed by `print([...])`. -/
def pyListRepr (xs : List String) : String :=
  "[" ++ String.intercalate ", " (xs.map (fun s => "'" ++ s ++ "'")) ++ "]"

/-- `" ".join(cmd)`. -/
def joinSpace (cmd : List String) : String :=
  String.intercalate " " cmd

/-- `pathlib.Path(p).parent` for POSIX-style path strings. -/
def parentDir (p : String) : String :=
  let parts := p.splitOn "/"
  match parts with
  | [] => "."
  | [_] => "."
  | _ =>
    let init := parts.dropLast
    if init.all (fun s => s = "") then "/" else String.intercalate "/" init

/-! ## Filesystem model -/

/-- The slice of filesystem state the config writer touches: which directories
exist and which files exist with which text contents. -/
structure FS where
  dirs : List String
  files : List (String × String)
deriving DecidableEq, Repr

/-- Contents of a file, `none` when the path does not exist as a file. -/
def FS.fileContents (fs : FS) (p : String) : Option String :=
  fs.files.lookup p

/-- `Path(p).exists()` restricted to the files the model tracks. -/
def FS.pathExists (fs : FS) (p : String) : Bool :=
  (fs.files.lookup p).isSome

/-- `Path(p).write_text(c)`: create or overwrite. -/
def FS.writeText (fs : FS) (p c : String) : FS :=
  { fs with files := (p, c) :: fs.files.filter (fun e => e.1 ≠ p) }

/-- `Path(d).mkdir(parents=True, exist_ok=True)`: afterwards `d` exists; the
ancestor chain is abstracted away since nothing here depends on it. -/
def FS.mkdirParents (fs : FS) (d : String) : FS :=
  { fs with dirs := d :: fs.dirs }

/-! ## Config file writer (`Codebase/Setup/create_pypirc.py`) -/

/-- The fixed `PYPIRC_CONTENT` template written by `create_pypirc`. -/
def PYPIRC_CONTENT : String :=
  "[distutils]\nindex-servers =\n    pypi\n    testpypi\n\n" ++
  "[pypi]\nrepository = https://upload.pypi.org/legacy/\nusername = __token__\n" ++
  "password = pypi-XXXXXXXXXXXXXXXXXXXXXXXXXXXXXXXXXXXXXXXXXXXX\n\n" ++
  "[testpypi]\nrepository = https://test.pypi.org/legacy/\nusername = __token__\n" ++
  "password = pypi-XXXXXXXXXXXXXXXXXXXXXXXXXXXXXXXXXXXXXXXXXXXX\n"

/-- `create_pypirc(folder, pypirc_path, force)`: returns the new filesystem
state and the message it prints. -/
def create_pypirc (folder pypircPath : String) (force : Bool) (fs : FS) :
    FS × String :=
  let fs1 := fs.mkdirParents folder
  let fs2 := fs1.mkdirParents (parentDir pypircPath)
  if fs2.pathExists pypircPath && !force then
    (fs2, "[setup-project-env] " ++ pypircPath ++
      " already exists. Use --force to overwrite.")
  else
    let action := if fs2.pathExists pypircPath then "Overwriting" else "Creating"
    (fs2.writeText pypircPath PYPIRC_CONTENT,
      "[setup-project-env] " ++ action ++ " " ++ pypircPath)

/-! ## Builder / non-interactive uploader (`Codebase/register_to_pip.py`) -/

/-- The Python exception kinds raised along these paths. -/
inductive PyError where
  | fileNotFound (msg : String)
  | runtimeError (msg : String)
deriving DecidableEq, Repr

/-- Environment facts `register_to_pip` depends on: where it runs, which
interpreter it spawns, whether the manifest exists, and how the child
processes behave. -/
structure PipWorld where
  projectRoot : String
  sysExecutable : String
  pyprojectIsFile : Bool
  buildExit : Int
  distIsDirAfterBuild : Bool
  twineImportOk : Bool
  twineExit : Int
deriving Repr

/-- `<project_root>/pyproject.toml`. -/
def pyprojectPath (w : PipWorld) : String :=
  w.projectRoot ++ "/pyproject.toml"

/-- The build command `[sys.executable, "-m", "build", "--wheel", "--sdist"]`. -/
def buildCmd (w : PipWorld) : List String :=
  [w.sysExecutable, "-m", "build", "--wheel", "--sdist"]

/-- `<project_root>/dist`. -/
def pipDistDir (w : PipWorld) : String :=
  w.projectRoot ++ "/dist"

/-- `str(dist_dir / "*")`. -/
def distGlob (w : PipWorld) : String :=
  pipDistDir w ++ "/*"

/-- The twine command `register_to_pip` constructs: the base invocation with
the repository flag inserted at index 3 when the selector is truthy. -/
def twineUploadCmd (w : PipWorld) (repository : Option String) : List String :=
  let cmd := [w.sysExecutable, "-m", "twine", "upload", distGlob w]
  match repository with
  | none => cmd
  | some r =>
    if r = "" then cmd
    else if pyStartswith r "http://" || pyStartswith r "https://" then
      cmd.insertIdx 3 ("--repository-url=" ++ r)
    else
      cmd.insertIdx 3 ("--repository=" ++ r)

/-- `_run_cmd`: given the exit code the child returns, `none` on success and
the `RuntimeError` it raises on non-zero exit. -/
def run_cmd_result (cmd : List String) (returncode : Int) : Option PyError :=
  if returncode ≠ 0 then
    some (.runtimeError ("Command '" ++ joinSpace cmd ++
      "' failed with exit code " ++ toString returncode))
  else none

/-- Result of `register_to_pip`: the exception it raises (if any) and the
child processes it ran, in order. -/
structure PipResult where
  error : Option PyError
  spawned : List (List String)
deriving DecidableEq, Repr

/-- `register_to_pip(project_root, upload=..., repository=...)`. -/
def register_to_pip (w : PipWorld) (upload : Bool) (repository : Option String) :
    PipResult :=
  if w.pyprojectIsFile = false then
    { error := some (.fileNotFound ("pyproject.toml not found at " ++
        pyprojectPath w ++ ". The target project must be a pyproject-based package.")),
      spawned := [] }
  else
    match run_cmd_result (buildCmd w) w.buildExit with
    | some e => { error := some e, spawned := [buildCmd w] }
    | none =>
      if w.distIsDirAfterBuild = false then
        { error := some (.fileNotFound ("Build completed but no 'dist' directory was found at " ++ pipDistDir w)),
          spawned := [buildCmd w] }
      else if upload = false then
        { error := none, spawned := [buildCmd w] }
      else if w.twineImportOk = false then
        { error := some (.runtimeError "Twine is not installed. Install it with:\n\n    python -m pip install twine\n"),
          spawned := [buildCmd w] }
      else
        let cmd := twineUploadCmd w repository
        { error := run_cmd_result cmd w.twineExit,
          spawned := [buildCmd w, cmd] }

/-! ## Interactive uploader (`Codebase/register_to_pypi.py`) -/

/-- Observable events of `register_to_pypi`: printed lines, the ENTER pacing
prompt, the token prompt (hidden via getpass or visible via input), and a
spawned child process with the two credential environment variables it
receives. -/
inductive PypiEvent where
  | print (line : String)
  | promptEnter
  | promptToken (hidden : Bool)
  | spawn (cmd : List String) (twineUsername twinePassword : String)
deriving DecidableEq, Repr

/-- Environment facts `register_to_pypi` depends on. `distFiles` are the
names globbed from `dist/`; `tokenRaw` is what the operator types at the
token prompt; `twineRunRaises` is the `FileNotFoundError` path of
`subprocess.run`; `twineExit` the child's exit code otherwise. -/
structure PypiWorld where
  projectRoot : String
  distExists : Bool
  distFiles : List String
  stdinIsatty : Bool
  getpassRaises : Bool
  tokenRaw : String
  osIsWindows : Bool
  twineRunRaises : Bool
  twineExit : Int
deriving Repr

/-- `_prompt_token`: hidden read via getpass when stdin is a tty and getpass
does not raise; otherwise the visible-input fallback with its notice line.
Returns the stripped token and the events performed. -/
def prompt_token (w : PypiWorld) : String × List PypiEvent :=
  if w.stdinIsatty && !w.getpassRaises then
    (pyStrip w.tokenRaw, [.promptToken true])
  else
    (pyStrip w.tokenRaw,
      [.print "(getpass not available here – your input will be visible)",
       .promptToken false])

/-- `<project_root>/dist` as seen by `register_to_pypi`. -/
def pypiDistDir (w : PypiWorld) : String :=
  w.projectRoot ++ "/dist"

/-- The 60-character separator lines the interactive uploader prints. -/
def sepEq : String := ⟨List.replicate 60 '='⟩

/-- The 60-character dashed separator line. -/
def sepDash : String := ⟨List.replicate 60 '-'⟩

/-- The instructional banner printed before the ENTER pacing prompt. -/
def pypiBanner : List PypiEvent :=
  [.print sepEq,
   .print " PyPI Upload Helper (REAL PYPI)",
   .print sepEq,
   .print "1) Open this URL in your browser:",
   .print "   https://pypi.org/manage/account/#api-tokens",
   .print "2) Create a new API token (or copy an existing one).",
   .print "3) Have the token ready in your clipboard.",
   .print "4) Then come back here and press ENTER to continue.",
   .print sepDash,
   .promptEnter]

/-- `register_to_pypi(project_root)`: the returned status code together with
the trace of events performed, in order. -/
def register_to_pypi (w : PypiWorld) : Int × List PypiEvent :=
  let distDir := pypiDistDir w
  if w.distExists = false then
    (1, [.print ("[ERROR] dist/ directory not found at: " ++ distDir),
         .print "        Build your package first, e.g. `python -m build`."])
  else
    let tok := prompt_token w
    let token := tok.1
    let evs1 := pypiBanner ++ tok.2
    if token = "" then
      (1, evs1 ++ [.print "[ERROR] No token entered. Aborting."])
    else
      let files := pySorted w.distFiles
      if files = [] then
        (1, evs1 ++
          [.print ("[ERROR] No files found in dist/: " ++ distDir),
           .print "        Run `python -m build` first to create distributions."])
      else
        let pythonCmd := if w.osIsWindows then ["py", "-m", "twine", "upload"]
                         else ["python3", "-m", "twine", "upload"]
        let cmd := pythonCmd ++ files.map (fun f => distDir ++ "/" ++ f)
        let evs2 := evs1 ++
          [.print sepDash,
           .print ("Project root : " ++ w.projectRoot),
           .print ("dist/ files  : " ++ pyListRepr files),
           .print ("Running      : " ++ joinSpace cmd),
           .print sepDash,
           .print "NOTE: Using username '__token__' and your API token as password.",
           .print sepEq]
        if w.twineRunRaises then
          (1, evs2 ++
            [.print "[ERROR] Failed to run twine command.",
             .print "       Make sure 'twine' is installed in your environment:",
             .print "         pip install twine"])
        else
          let evs3 := evs2 ++ [.spawn cmd "__token__" token]
          if w.twineExit = 0 then
            (0, evs3 ++ [.print "✅ Upload to PyPI completed successfully."])
          else
            (w.twineExit,
             evs3 ++ [.print ("❌ twine exited with code " ++ toString w.twineExit ++ ".")])

/-! ## CLI dispatcher (`Codebase/cli.py`) -/

/-- Outcome of `main()` in `cli.py`: the `SystemExit` code and whether the
help text was printed. -/
structure CliResult where
  exitCode : Int
  helpPrinted : Bool
deriving DecidableEq, Repr

/-- `main()` in `cli.py`: `argv` is the full `sys.argv` (program name first);
`dispatch` abstracts `parser.parse_args` followed by `args.func(args)`, the
path taken only when arguments are present. -/
def cli_main (argv : List String) (dispatch : List String → Int) : CliResult :=
  if argv.length = 1 then
    { exitCode := 0, helpPrinted := true }
  else
    { exitCode := dispatch argv, helpPrinted := false }

/-! ## Theorems -/

/-- C3: for every project root without a `pyproject.toml` manifest,
`register_to_pip` fails with a manifest-not-found error naming the expected
path, and no child process is spawned. -/
theorem register_to_pip_missing_manifest (w : PipWorld) (upload : Bool)
    (rep : Option String) (h : w.pyprojectIsFile = false) :
    (register_to_pip w upload rep).spawned = []
    ∧ (register_to_pip w upload rep).error =
        some (.fileNotFound ("pyproject.toml not found at " ++ pyprojectPath w ++
          ". The target project must be a pyproject-based package.")) := by
  simp [register_to_pip, h]

/-- Witness for C3 at a concrete world lacking the manifest. -/
theorem register_to_pip_missing_manifest_witness :
    ({ projectRoot := "/tmp/pkg", sysExecutable := "/usr/bin/python3",
       pyprojectIsFile := false, buildExit := 0, distIsDirAfterBuild := true,
       twineImportOk := true, twineExit := 0 } : PipWorld).pyprojectIsFile = false
    ∧ (register_to_pip
        { projectRoot := "/tmp/pkg", sysExecutable := "/usr/bin/python3",
          pyprojectIsFile := false, buildExit := 0, distIsDirAfterBuild := true,
          twineImportOk := true, twineExit := 0 } false none).spawned = [] :=
  ⟨rfl, (register_to_pip_missing_manifest _ false none rfl).1⟩

/-- C5: with `upload=False` on a root with a manifest (and a successful
build), `register_to_pip` returns after the build step with no error, having
spawned only the build command and never the twine upload command. -/
theorem register_to_pip_skips_upload (w : PipWorld) (rep : Option String)
    (h1 : w.pyprojectIsFile = true) (h2 : w.buildExit = 0)
    (h3 : w.distIsDirAfterBuild = true) :
    register_to_pip w false rep = { error := none, spawned := [buildCmd w] }
    ∧ twineUploadCmd w rep ∉ (register_to_pip w false rep).spawned := by
  have hres : register_to_pip w false rep = { error := none, spawned := [buildCmd w] } := by
    simp [register_to_pip, run_cmd_result, h1, h2, h3]
  refine ⟨hres, ?_⟩
  rw [hres]
  intro hmem
  have heq : twineUploadCmd w rep = buildCmd w := by simpa using hmem
  have h2 : (twineUploadCmd w rep)[2]? = some "twine" := by
    unfold twineUploadCmd
    match rep with
    | none => rfl
    | some r =>
      by_cases he : r = ""
      · simp [he]
      · by_cases hu : (pyStartswith r "http://" || pyStartswith r "https://") = true
        · simp [he, hu, List.insertIdx]
        · simp only [Bool.not_eq_true] at hu
          simp [he, hu, List.insertIdx]
  rw [heq] at h2
  simp [buildCmd] at h2

/-- Witness for C5 at a concrete world with a manifest and a clean build. -/
theorem register_to_pip_skips_upload_witness :
    ({ projectRoot := "/tmp/pkg", sysExecutable := "/usr/bin/python3",
       pyprojectIsFile := true, buildExit := 0, distIsDirAfterBuild := true,
       twineImportOk := true, twineExit := 0 } : PipWorld).pyprojectIsFile = true
    ∧ (register_to_pip
        { projectRoot := "/tmp/pkg", sysExecutable := "/usr/bin/python3",
          pyprojectIsFile := true, buildExit := 0, distIsDirAfterBuild := true,
          twineImportOk := true, twineExit := 0 } false none).error = none :=
  ⟨rfl, by
    have h := register_to_pip_skips_upload
      { projectRoot := "/tmp/pkg", sysExecutable := "/usr/bin/python3",
        pyprojectIsFile := true, buildExit := 0, distIsDirAfterBuild := true,
        twineImportOk := true, twineExit := 0 } none rfl rfl rfl
    rw [h.1]⟩

/-- C6: `_run_cmd` fails exactly on non-zero child exit, with a
`RuntimeError` message carrying the joined command line and the exact exit
code; on zero exit it succeeds with no error. -/
theorem run_cmd_exit_code (cmd : List String) (code : Int) :
    (code ≠ 0 → run_cmd_result cmd code =
      some (.runtimeError ("Command '" ++ joinSpace cmd ++
        "' failed with exit code " ++ toString code)))
    ∧ run_cmd_result cmd 0 = none := by
  constructor
  · intro h
    simp [run_cmd_result, h]
  · simp [run_cmd_result]

/-- Witness for C6 at a concrete command and exit code 7. -/
theorem run_cmd_exit_code_witness :
    (7 : Int) ≠ 0
    ∧ run_cmd_result ["python3", "-m", "build"] 7 =
        some (.runtimeError "Command 'python3 -m build' failed with exit code 7") :=
  ⟨by decide, by
    have h := (run_cmd_exit_code ["python3", "-m", "build"] 7).1 (by decide)
    simpa [joinSpace] using h⟩

/-- C7: when the collected (stripped) token is empty, `register_to_pypi`
logs the no-token error and returns status 1 without attempting any upload
subprocess. -/
theorem register_to_pypi_empty_token (w : PypiWorld)
    (hd : w.distExists = true) (ht : pyStrip w.tokenRaw = "") :
    (register_to_pypi w).1 = 1
    ∧ PypiEvent.print "[ERROR] No token entered. Aborting." ∈ (register_to_pypi w).2
    ∧ ∀ c u p, PypiEvent.spawn c u p ∉ (register_to_pypi w).2 := by
  cases hs : w.stdinIsatty <;> cases hg : w.getpassRaises <;>
    refine ⟨?_, ?_, ?_⟩ <;>
    simp [register_to_pypi, prompt_token, pypiBanner, hd, ht, hs, hg]

/-- Witness for C7: whitespace-only input strips to the empty token. -/
theorem register_to_pypi_empty_token_witness :
    ({ projectRoot := "/p", distExists := true, distFiles := ["a.whl"],
       stdinIsatty := true, getpassRaises := false, tokenRaw := "  ",
       osIsWindows := false, twineRunRaises := false, twineExit := 0 } : PypiWorld).distExists = true
    ∧ pyStrip "  " = ""
    ∧ (register_to_pypi
        { projectRoot := "/p", distExists := true, distFiles := ["a.whl"],
          stdinIsatty := true, getpassRaises := false, tokenRaw := "  ",
          osIsWindows := false, twineRunRaises := false, twineExit := 0 }).1 = 1 :=
  ⟨rfl, by decide, (register_to_pypi_empty_token _ rfl (by decide)).1⟩

/-- C8: invoking the CLI dispatcher with no subcommand (argv holds only the
program name) prints the help text and exits with status 0. -/
theorem cli_main_no_args (prog : String) (dispatch : List String → Int) :
    cli_main [prog] dispatch = { exitCode := 0, helpPrinted := true } := by
  simp [cli_main]

/-- C9: `create_pypirc` always creates the target folder and the parent
directory of the config file path, for every `force` value — including the
run that then refuses to overwrite an existing file. -/
theorem create_pypirc_creates_dirs (folder p : String) (force : Bool) (fs : FS) :
    folder ∈ (create_pypirc folder p force fs).1.dirs
    ∧ parentDir p ∈ (create_pypirc folder p force fs).1.dirs := by
  simp only [create_pypirc, FS.mkdirParents, FS.writeText, FS.pathExists]
  split <;> simp

/-- C10: the empty-string repository selector is falsy in Python, so
`register_to_pip` behaves exactly as with `repository=None`. -/
theorem register_to_pip_empty_repository (w : PipWorld) (upload : Bool) :
    register_to_pip w upload (some "") = register_to_pip w upload none := by
  simp [register_to_pip, twineUploadCmd]

/-- C4: when the target config file already exists and `force` is off,
`create_pypirc` leaves every file's bytes unchanged and reports that the
file already exists; the file is (re)written exactly when `force` is set or
the file did not exist. -/
theorem create_pypirc_overwrite_guard (folder p : String) (fs : FS) :
    (fs.pathExists p = true →
      (create_pypirc folder p false fs).1.files = fs.files
      ∧ (create_pypirc folder p false fs).1.fileContents p = fs.fileContents p
      ∧ (create_pypirc folder p false fs).2 =
          "[setup-project-env] " ++ p ++ " already exists. Use --force to overwrite.")
    ∧ (∀ force : Bool, (force = true ∨ fs.pathExists p = false) →
        (create_pypirc folder p force fs).1.fileContents p = some PYPIRC_CONTENT) := by
  constructor
  · intro hex
    have hex2 : FS.pathExists ((fs.mkdirParents folder).mkdirParents (parentDir p)) p = true := hex
    refine ⟨?_, ?_, ?_⟩ <;>
      simp [create_pypirc, FS.mkdirParents, FS.fileContents, FS.pathExists] at hex2 ⊢ <;>
      simp [hex2]
  · intro force hf
    have hcond : (FS.pathExists ((fs.mkdirParents folder).mkdirParents (parentDir p)) p
        && !force) = false := by
      rcases hf with hf | hf
      · simp [hf]
      · have : FS.pathExists ((fs.mkdirParents folder).mkdirParents (parentDir p)) p = false := hf
        simp [this]
    simp only [create_pypirc]
    rw [hcond]
    simp [FS.writeText, FS.fileContents, List.lookup]

/-- Witness for C4 at a concrete filesystem holding an old config file. -/
theorem create_pypirc_overwrite_guard_witness :
    FS.pathExists ⟨[], [("/p/UserData/.pypirc", "old")]⟩ "/p/UserData/.pypirc" = true
    ∧ (create_pypirc "/p" "/p/UserData/.pypirc" false
        ⟨[], [("/p/UserData/.pypirc", "old")]⟩).1.files = [("/p/UserData/.pypirc", "old")] :=
  ⟨by decide, by
    have h := (create_pypirc_overwrite_guard "/p" "/p/UserData/.pypirc"
      ⟨[], [("/p/UserData/.pypirc", "old")]⟩).1 (by decide)
    exact h.1⟩

/-- C1 counterexample: the claim fails as stated.  With a `dist/` directory
that exists but contains no files, `register_to_pypi` does prompt the
operator for a token (the empty-dist check runs only after token
collection), so "returns 1 without prompting for a token" is violated. -/
theorem register_to_pypi_c1_counterexample :
    ¬ (∀ w : PypiWorld, (w.distExists = false ∨ w.distFiles = []) →
        (register_to_pypi w).1 = 1
        ∧ (∀ b, PypiEvent.promptToken b ∉ (register_to_pypi w).2)
        ∧ (∀ c u p, PypiEvent.spawn c u p ∉ (register_to_pypi w).2)) := by
  intro h
  have hw := h
    { projectRoot := "/p", distExists := true, distFiles := [],
      stdinIsatty := true, getpassRaises := false, tokenRaw := "tok",
      osIsWindows := false, twineRunRaises := false, twineExit := 0 }
    (Or.inr rfl)
  exact hw.2.1 true (by decide)

/-- C1 (amended): if `dist/` is missing, `register_to_pypi` returns 1
without prompting at all and without spawning any child process; if `dist/`
exists but contains no files, it returns 1 and spawns no child process,
although the operator has already been prompted for a token by then. -/
theorem register_to_pypi_dist_guard (w : PypiWorld) :
    (w.distExists = false →
      (register_to_pypi w).1 = 1
      ∧ (∀ b, PypiEvent.promptToken b ∉ (register_to_pypi w).2)
      ∧ PypiEvent.promptEnter ∉ (register_to_pypi w).2
      ∧ (∀ c u p, PypiEvent.spawn c u p ∉ (register_to_pypi w).2))
    ∧ (w.distExists = true → w.distFiles = [] →
      (register_to_pypi w).1 = 1
      ∧ (∀ c u p, PypiEvent.spawn c u p ∉ (register_to_pypi w).2)) := by
  constructor
  · intro hd
    refine ⟨?_, ?_, ?_, ?_⟩ <;> simp [register_to_pypi, hd]
  · intro hd hf
    by_cases ht : pyStrip w.tokenRaw = "" <;>
      cases hs : w.stdinIsatty <;> cases hg : w.getpassRaises <;>
      refine ⟨?_, ?_⟩ <;>
      simp [register_to_pypi, prompt_token, pypiBanner, pySorted, hd, hf, ht, hs, hg]

/-- Two strings differing at some character position are different. -/
lemma string_ne_of_get_ne (a b : String) (i : Nat) (c : Char)
    (ha : a.data[i]? = some c) (hb : b.data[i]? ≠ some c) : a ≠ b := by
  intro h
  subst h
  exact hb ha

/-- A character of the left part of an append survives in the append. -/
lemma data_getElem_append_left (p s : String) (i : Nat) (c : Char)
    (h : p.data[i]? = some c) : (p ++ s).data[i]? = some c := by
  have hlt : i < p.data.length := by
    by_contra hn
    push_neg at hn
    rw [List.getElem?_eq_none hn] at h
    cases h
  rw [String.data_append, List.getElem?_append_left hlt]
  exact h

lemma namedFlag_head (s : String) : ("--repository=" ++ s).data[0]? = some '-' :=
  data_getElem_append_left _ _ _ _ (by decide)

lemma namedFlag_at1 (s : String) : ("--repository=" ++ s).data[1]? = some '-' :=
  data_getElem_append_left _ _ _ _ (by decide)

lemma namedFlag_at12 (s : String) : ("--repository=" ++ s).data[12]? = some '=' :=
  data_getElem_append_left _ _ _ _ (by decide)

lemma urlFlag_head (s : String) : ("--repository-url=" ++ s).data[0]? = some '-' :=
  data_getElem_append_left _ _ _ _ (by decide)

lemma urlFlag_at1 (s : String) : ("--repository-url=" ++ s).data[1]? = some '-' :=
  data_getElem_append_left _ _ _ _ (by decide)

lemma urlFlag_at12 (s : String) : ("--repository-url=" ++ s).data[12]? = some '-' :=
  data_getElem_append_left _ _ _ _ (by decide)

/-- The dist glob starts with the project root, so it cannot start with a dash
when the project root does not. -/
lemma distGlob_head_ne (w : PipWorld) (hroot : w.projectRoot.data[0]? ≠ some '-') :
    (distGlob w).data[0]? ≠ some '-' := by
  unfold distGlob pipDistDir
  rw [String.data_append, String.data_append]
  cases hd : w.projectRoot.data with
  | nil => decide
  | cons c cs =>
    rw [hd] at hroot
    simpa using hroot

/-- No named-repository flag occurs in the flagless twine invocation. -/
lemma namedFlag_notMem_base (w : PipWorld)
    (hexe : w.sysExecutable.data[0]? ≠ some '-')
    (hroot : w.projectRoot.data[0]? ≠ some '-') (s : String) :
    ("--repository=" ++ s) ∉ [w.sysExecutable, "-m", "twine", "upload", distGlob w] := by
  have h1 := string_ne_of_get_ne _ _ 0 '-' (namedFlag_head s) hexe
  have h2 := string_ne_of_get_ne ("--repository=" ++ s) "-m" 1 '-' (namedFlag_at1 s) (by decide)
  have h3 := string_ne_of_get_ne ("--repository=" ++ s) "twine" 0 '-' (namedFlag_head s) (by decide)
  have h4 := string_ne_of_get_ne ("--repository=" ++ s) "upload" 0 '-' (namedFlag_head s) (by decide)
  have h5 := string_ne_of_get_ne _ _ 0 '-' (namedFlag_head s) (distGlob_head_ne w hroot)
  simp [h1, h2, h3, h4, h5]

/-- No repository-URL flag occurs in the flagless twine invocation. -/
lemma urlFlag_notMem_base (w : PipWorld)
    (hexe : w.sysExecutable.data[0]? ≠ some '-')
    (hroot : w.projectRoot.data[0]? ≠ some '-') (s : String) :
    ("--repository-url=" ++ s) ∉ [w.sysExecutable, "-m", "twine", "upload", distGlob w] := by
  have h1 := string_ne_of_get_ne _ _ 0 '-' (urlFlag_head s) hexe
  have h2 := string_ne_of_get_ne ("--repository-url=" ++ s) "-m" 1 '-' (urlFlag_at1 s) (by decide)
  have h3 := string_ne_of_get_ne ("--repository-url=" ++ s) "twine" 0 '-' (urlFlag_head s) (by decide)
  have h4 := string_ne_of_get_ne ("--repository-url=" ++ s) "upload" 0 '-' (urlFlag_head s) (by decide)
  have h5 := string_ne_of_get_ne _ _ 0 '-' (urlFlag_head s) (distGlob_head_ne w hroot)
  simp [h1, h2, h3, h4, h5]

/-- No named-repository flag occurs in the twine invocation carrying a
repository-URL flag: the two flags differ at character 12 (`=` vs `-`). -/
lemma namedFlag_notMem_urlCmd (w : PipWorld)
    (hexe : w.sysExecutable.data[0]? ≠ some '-')
    (hroot : w.projectRoot.data[0]? ≠ some '-') (u s : String) :
    ("--repository=" ++ s) ∉
      [w.sysExecutable, "-m", "twine", "--repository-url=" ++ u, "upload", distGlob w] := by
  have hbase := namedFlag_notMem_base w hexe hroot s
  have h6 := string_ne_of_get_ne ("--repository=" ++ s) ("--repository-url=" ++ u) 12 '='
    (namedFlag_at12 s) (by rw [urlFlag_at12]; decide)
  simp only [List.mem_cons, List.mem_singleton, not_or] at hbase ⊢
  exact ⟨hbase.1, hbase.2.1, hbase.2.2.1, h6, hbase.2.2.2.1, hbase.2.2.2.2⟩

/-- No repository-URL flag occurs in the twine invocation carrying a
named-repository flag. -/
lemma urlFlag_notMem_namedCmd (w : PipWorld)
    (hexe : w.sysExecutable.data[0]? ≠ some '-')
    (hroot : w.projectRoot.data[0]? ≠ some '-') (n s : String) :
    ("--repository-url=" ++ s) ∉
      [w.sysExecutable, "-m", "twine", "--repository=" ++ n, "upload", distGlob w] := by
  have hbase := urlFlag_notMem_base w hexe hroot s
  have h6 := string_ne_of_get_ne ("--repository-url=" ++ s) ("--repository=" ++ n) 12 '-'
    (urlFlag_at12 s) (by rw [namedFlag_at12]; decide)
  simp only [List.mem_cons, List.mem_singleton, not_or] at hbase ⊢
  exact ⟨hbase.1, hbase.2.1, hbase.2.2.1, h6, hbase.2.2.2.1, hbase.2.2.2.2⟩

/-- The shape of the twine command for a URL selector. -/
lemma twineUploadCmd_url (w : PipWorld) (u : String) (hne : u ≠ "")
    (hu : (pyStartswith u "http://" || pyStartswith u "https://") = true) :
    twineUploadCmd w (some u) =
      [w.sysExecutable, "-m", "twine", "--repository-url=" ++ u, "upload", distGlob w] := by
  simp only [twineUploadCmd]
  rw [if_neg hne, if_pos hu]
  rfl

/-- The shape of the twine command for a bare-name selector. -/
lemma twineUploadCmd_named (w : PipWorld) (n : String) (hne : n ≠ "")
    (hn : (pyStartswith n "http://" || pyStartswith n "https://") = false) :
    twineUploadCmd w (some n) =
      [w.sysExecutable, "-m", "twine", "--repository=" ++ n, "upload", distGlob w] := by
  simp only [twineUploadCmd]
  rw [if_neg hne, if_neg (by simp [hn])]
  rfl

/-- C2: in the upload path of `register_to_pip`, a URL selector (prefix
`http://` or `https://`) yields exactly the `--repository-url=<URL>` flag, a
non-empty bare name yields exactly the `--repository=<name>` flag, and
`None` yields neither; the spawned processes are the build command followed
by that twine command.  (The dash-freeness hypotheses on the interpreter
path and project root rule out degenerate worlds whose own paths are spelled
like flags.) -/
theorem register_to_pip_repository_flags (w : PipWorld) (rep : Option String)
    (h1 : w.pyprojectIsFile = true) (h2 : w.buildExit = 0)
    (h3 : w.distIsDirAfterBuild = true) (h4 : w.twineImportOk = true)
    (hexe : w.sysExecutable.data[0]? ≠ some '-')
    (hroot : w.projectRoot.data[0]? ≠ some '-') :
    (register_to_pip w true rep).spawned = [buildCmd w, twineUploadCmd w rep]
    ∧ (∀ u, rep = some u →
        (pyStartswith u "http://" || pyStartswith u "https://") = true →
          ("--repository-url=" ++ u) ∈ twineUploadCmd w rep
          ∧ ∀ s, ("--repository=" ++ s) ∉ twineUploadCmd w rep)
    ∧ (∀ n, rep = some n → n ≠ "" →
        (pyStartswith n "http://" || pyStartswith n "https://") = false →
          ("--repository=" ++ n) ∈ twineUploadCmd w rep
          ∧ ∀ s, ("--repository-url=" ++ s) ∉ twineUploadCmd w rep)
    ∧ (rep = none →
        (∀ s, ("--repository=" ++ s) ∉ twineUploadCmd w rep)
        ∧ (∀ s, ("--repository-url=" ++ s) ∉ twineUploadCmd w rep)) := by
  refine ⟨?_, ?_, ?_, ?_⟩
  · simp [register_to_pip, run_cmd_result, h1, h2, h3, h4]
  · rintro u rfl hu
    have hne : u ≠ "" := by
      intro h
      subst h
      exact absurd hu (by decide)
    rw [twineUploadCmd_url w u hne hu]
    exact ⟨by simp, fun s => namedFlag_notMem_urlCmd w hexe hroot u s⟩
  · rintro n rfl hne hn
    rw [twineUploadCmd_named w n hne hn]
    exact ⟨by simp, fun s => urlFlag_notMem_namedCmd w hexe hroot n s⟩
  · rintro rfl
    have hcmd : twineUploadCmd w none =
        [w.sysExecutable, "-m", "twine", "upload", distGlob w] := rfl
    rw [hcmd]
    exact ⟨fun s => namedFlag_notMem_base w hexe hroot s,
           fun s => urlFlag_notMem_base w hexe hroot s⟩

/-- Witness for C2 at a concrete world and the bare name `testpypi`. -/
theorem register_to_pip_repository_flags_witness :
    ({ projectRoot := "/tmp/pkg", sysExecutable := "/usr/bin/python3",
       pyprojectIsFile := true, buildExit := 0, distIsDirAfterBuild := true,
       twineImportOk := true, twineExit := 0 } : PipWorld).sysExecutable.data[0]? ≠ some '-'
    ∧ (pyStartswith "testpypi" "http://" || pyStartswith "testpypi" "https://") = false
    ∧ ("--repository=" ++ "testpypi") ∈ twineUploadCmd
        { projectRoot := "/tmp/pkg", sysExecutable := "/usr/bin/python3",
          pyprojectIsFile := true, buildExit := 0, distIsDirAfterBuild := true,
          twineImportOk := true, twineExit := 0 } (some "testpypi") :=
  ⟨by decide, by decide, by
    have h := register_to_pip_repository_flags
      { projectRoot := "/tmp/pkg", sysExecutable := "/usr/bin/python3",
        pyprojectIsFile := true, buildExit := 0, distIsDirAfterBuild := true,
        twineImportOk := true, twineExit := 0 } (some "testpypi")
      rfl rfl rfl rfl (by decide) (by decide)
    exact (h.2.2.1 "testpypi" rfl (by decide) (by decide)).1⟩

/-- Witness for the amended C1 at a concrete world with `dist/` missing. -/
theorem register_to_pypi_dist_guard_witness :
    ({ projectRoot := "/p", distExists := false, distFiles := [],
       stdinIsatty := true, getpassRaises := false, tokenRaw := "tok",
       osIsWindows := false, twineRunRaises := false, twineExit := 0 } : PypiWorld).distExists = false
    ∧ (register_to_pypi
        { projectRoot := "/p", distExists := false, distFiles := [],
          stdinIsatty := true, getpassRaises := false, tokenRaw := "tok",
          osIsWindows := false, twineRunRaises := false, twineExit := 0 }).1 = 1 :=
  ⟨rfl, ((register_to_pypi_dist_guard _).1 rfl).1⟩
